import Mathlib

/-!
# Student roster service (`server.js`): embedding and verified properties

The express handlers of `src/server.js` are embedded as pure functions on an
explicit store.  JavaScript strings are lists of characters, JavaScript
numbers are `JsNum`, and the values found in a request body or in a stored
document are `JsVal`.
-/

namespace NdBackend

/-! ## JavaScript values -/

/-- A JavaScript string, as its sequence of characters. -/
abbrev JsStr := List Char

/-- A JavaScript number: `NaN`, an infinity, or a finite value.  Finite values
are kept exact (the rounding of a literal to binary64 is not modelled) and
negative zero is identified with zero, as `===` does. -/
inductive JsNum where
  | nan : JsNum
  | inf (negative : Bool) : JsNum
  | fin (q : ℚ) : JsNum
  deriving DecidableEq

/-- A value of a request body or of a stored document. -/
inductive JsVal where
  | undefined : JsVal
  | null : JsVal
  | bool (b : Bool) : JsVal
  | num (n : JsNum) : JsVal
  | str (s : JsStr) : JsVal
  deriving DecidableEq

/-- The number zero. -/
def JsNum.zero : JsNum := JsNum.fin 0

/-- ToBoolean on a number: `NaN` and zero are falsy. -/
def JsNum.truthy : JsNum → Bool
  | JsNum.nan => false
  | JsNum.inf _ => true
  | JsNum.fin q => decide (q ≠ 0)

/-- The comparison `n >= 0`; it is false for `NaN`. -/
def JsNum.nonneg : JsNum → Bool
  | JsNum.nan => false
  | JsNum.inf negative => !negative
  | JsNum.fin q => decide (0 ≤ q)

/-- ToBoolean, the test behind `!x` and `x || y`. -/
def JsVal.truthy : JsVal → Bool
  | JsVal.undefined => false
  | JsVal.null => false
  | JsVal.bool b => b
  | JsVal.num n => n.truthy
  | JsVal.str s => !s.isEmpty

/-! ### `Number(...)` on strings -/

/-- White space and line terminators stripped by StringToNumber. -/
def isStrWhiteSpace (c : Char) : Bool :=
  let n := c.toNat
  n = 0x09 || n = 0x0A || n = 0x0B || n = 0x0C || n = 0x0D || n = 0x20 || n = 0xA0
    || n = 0x1680 || (0x2000 ≤ n && n ≤ 0x200A) || n = 0x2028 || n = 0x2029
    || n = 0x202F || n = 0x205F || n = 0x3000 || n = 0xFEFF

/-- Strip white space on both ends. -/
def trimWhite (s : JsStr) : JsStr :=
  ((s.dropWhile isStrWhiteSpace).reverse.dropWhile isStrWhiteSpace).reverse

/-- Value of a digit in the given radix, if the character is one. -/
def digitVal (radix : Nat) (c : Char) : Option Nat :=
  let n := c.toNat
  let v : Option Nat :=
    if 48 ≤ n && n ≤ 57 then some (n - 48)
    else if 97 ≤ n && n ≤ 102 then some (n - 87)
    else if 65 ≤ n && n ≤ 70 then some (n - 55)
    else none
  match v with
  | some d => if d < radix then some d else none
  | none => none

/-- Value of a non-empty run of digits in the given radix, read from the
accumulator `acc`; `none` if some character is not a digit. -/
def digitsVal (radix : Nat) : Nat → JsStr → Option Nat
  | acc, [] => some acc
  | acc, c :: cs =>
    match digitVal radix c with
    | some d => digitsVal radix (acc * radix + d) cs
    | none => none

/-- A non-empty run of digits in the given radix. -/
def natLiteral (radix : Nat) (s : JsStr) : Option Nat :=
  if s.isEmpty then none else digitsVal radix 0 s

/-- Split a string at the first character satisfying `p`: the part before it
and, if there is one, the part after it. -/
def splitFirst (p : Char → Bool) : JsStr → JsStr × Option JsStr
  | [] => ([], none)
  | c :: cs =>
    if p c then ([], some cs)
    else
      let r := splitFirst p cs
      (c :: r.1, r.2)

/-- The signed integer of an exponent part, the text after `e` or `E`. -/
def exponentLiteral (s : JsStr) : Option Int :=
  match s with
  | '+' :: ds => (natLiteral 10 ds).map Int.ofNat
  | '-' :: ds => (natLiteral 10 ds).map (fun n => - Int.ofNat n)
  | ds => (natLiteral 10 ds).map Int.ofNat

/-- The mathematical value `m * 10 ^ e`. -/
def scale10 (m : Nat) (e : Int) : ℚ :=
  match e with
  | Int.ofNat k => ((m * 10 ^ k : Nat) : ℚ)
  | Int.negSucc k => mkRat (m : Int) (10 ^ (k + 1))

/-- An unsigned StrDecimalLiteral other than `Infinity`: digits with an
optional fraction and an optional exponent, at least one digit before the
exponent. -/
def unsignedDecimal (s : JsStr) : Option ℚ :=
  let me := splitFirst (fun c => c = 'e' || c = 'E') s
  let ip := splitFirst (fun c => c = '.') me.1
  let intPart := ip.1
  let fracPart := ip.2.getD []
  if intPart.isEmpty && fracPart.isEmpty then none
  else
    match digitsVal 10 0 (intPart ++ fracPart) with
    | none => none
    | some m =>
      match me.2 with
      | none => some (scale10 m (- Int.ofNat fracPart.length))
      | some ex =>
        match exponentLiteral ex with
        | none => none
        | some e => some (scale10 m (e - Int.ofNat fracPart.length))

/-- A StrDecimalLiteral without its sign. -/
def decimalLiteral (negative : Bool) (s : JsStr) : JsNum :=
  if s = "Infinity".toList then JsNum.inf negative
  else
    match unsignedDecimal s with
    | some q => JsNum.fin (if negative then -q else q)
    | none => JsNum.nan

/-- StringToNumber: `Number(s)` for a string `s`. -/
def stringToNumber (s : JsStr) : JsNum :=
  match trimWhite s with
  | [] => JsNum.zero
  | '0' :: 'x' :: ds | '0' :: 'X' :: ds =>
    match natLiteral 16 ds with
    | some n => JsNum.fin n
    | none => JsNum.nan
  | '0' :: 'o' :: ds | '0' :: 'O' :: ds =>
    match natLiteral 8 ds with
    | some n => JsNum.fin n
    | none => JsNum.nan
  | '0' :: 'b' :: ds | '0' :: 'B' :: ds =>
    match natLiteral 2 ds with
    | some n => JsNum.fin n
    | none => JsNum.nan
  | '+' :: ds => decimalLiteral false ds
  | '-' :: ds => decimalLiteral true ds
  | ds => decimalLiteral false ds

/-- ToNumber: `Number(v)`. -/
def toNumber : JsVal → JsNum
  | JsVal.undefined => JsNum.nan
  | JsVal.null => JsNum.zero
  | JsVal.bool b => if b then JsNum.fin 1 else JsNum.zero
  | JsVal.num n => n
  | JsVal.str s => stringToNumber s

/-- The coercion `Number(v) || 0` of the handlers. -/
def numberOrZero (v : JsVal) : JsNum :=
  if (toNumber v).truthy then toNumber v else JsNum.zero

/-! ## Documents and the store -/

/-- A document of the `User` model. -/
structure User where
  _id : JsStr
  username : JsStr
  password : JsStr
  deriving DecidableEq

/-- A document of the `Student` model, one field per path of `studentSchema`
(`undefined` when the path is missing). -/
structure Student where
  _id : JsStr
  name : JsVal
  surname : JsVal
  parentName : JsVal
  study : JsVal
  mobile : JsVal
  parentMobile : JsVal
  prof : JsVal
  year : JsVal
  serviceCost : JsVal
  servicePayed : JsVal
  passport : JsVal
  isNastrfication : JsVal
  isNastrficationPayed : JsVal
  isSessionOpen : JsVal
  diplom : JsVal
  image : JsVal
  annualCost : JsVal
  annualPayed : JsVal
  deriving DecidableEq

/-- The two collections of the database `studentdb`. -/
structure Db where
  users : List User
  students : List Student
  deriving DecidableEq

/-- The scalar fields of `req.body` read by the student routes; a field the
request does not carry is `undefined`. -/
structure StudentBody where
  name : JsVal
  surname : JsVal
  parentName : JsVal
  study : JsVal
  prof : JsVal
  serviceCost : JsVal
  servicePayed : JsVal
  annualPayed : JsVal
  annualCost : JsVal
  year : JsVal
  mobile : JsVal
  parentMobile : JsVal
  isNastrfication : JsVal
  isNastrficationPayed : JsVal
  isSessionOpen : JsVal
  deriving DecidableEq

/-- One file stored by the `upload` middleware. -/
structure UploadedFile where
  filename : JsStr
  path : JsStr
  deriving DecidableEq

/-- The object `req.files` that `upload` sets on a multipart request: for each
of the three field names at most one file (`maxCount: 1`), `none` when no file
of that name was sent.  On a request that is not multipart `upload` sets no
`req.files` at all; the handlers take `req.files` as an `Option Files`. -/
structure Files where
  passport : Option UploadedFile
  diplom : Option UploadedFile
  image : Option UploadedFile
  deriving DecidableEq

/-- The object `updates` built by `PUT /students/:id`.  The fifteen scalar keys
are always present (with value `undefined` when the body lacks the field); the
three attachment keys exist only when a file was sent (`none`: no such key). -/
structure StudentUpdates where
  name : JsVal
  surname : JsVal
  parentName : JsVal
  study : JsVal
  mobile : JsVal
  parentMobile : JsVal
  prof : JsVal
  year : JsVal
  isSessionOpen : JsVal
  isNastrficationPayed : JsVal
  isNastrfication : JsVal
  serviceCost : JsVal
  servicePayed : JsVal
  annualCost : JsVal
  annualPayed : JsVal
  passport : Option JsVal
  diplom : Option JsVal
  image : Option JsVal
  deriving DecidableEq

/-- The persistence layer (mongoose over MongoDB) as far as the handlers
depend on it and the source does not fix it. -/
structure Persistence where
  /-- Whether queries are served; when not, every model call rejects. -/
  reachable : Bool
  /-- Whether `save()` of this document resolves (the casts and validators
  of the schema, and the write itself). -/
  accepts : Student → Bool
  /-- Whether `findByIdAndUpdate` casts this update without a cast error. -/
  acceptsUpdate : StudentUpdates → Bool
  /-- Whether a key whose value is `undefined` is dropped from an update
  (otherwise it is written as `null`). -/
  omitUndefined : Bool

/-- The credential primitives: `bcrypt.compare`, `jwt.sign` and `jwt.verify`
with the process-wide `secretKey`. -/
structure AuthLib where
  /-- The call `bcrypt.compare(password, hash)`. -/
  bcryptCompare : JsStr → JsStr → Bool
  /-- The token `jwt.sign` issues for a user id, valid for one hour. -/
  jwtSign : JsStr → JsStr
  /-- The decoded user id, or `none` when `jwt.verify` throws. -/
  jwtVerify : JsStr → Option JsStr

/-- The body sent with a response. -/
inductive Payload where
  | message (text : String) : Payload
  | token (t : JsStr) : Payload
  | student (text : String) (s : Student) : Payload
  | students (l : List Student) : Payload
  | doc (s : Student) : Payload
  deriving DecidableEq

/-- An HTTP response: status code and body. -/
structure Response where
  status : Nat
  payload : Payload
  deriving DecidableEq

/-- What a handler of a student route does with a request: it sends a
response, or it throws before sending one (the promise of the `async` handler
rejects outside its `try`, and no response is sent). -/
inductive Reply where
  | sent (r : Response) : Reply
  | thrown : Reply
  deriving DecidableEq

/-! ## `POST /login` -/

/-- The body of a login request: each credential is a string or absent. -/
structure LoginBody where
  username : Option JsStr
  password : Option JsStr
  deriving DecidableEq

/-- The test `!s` on a credential: absent or empty. -/
def falsyStr : Option JsStr → Bool
  | none => true
  | some s => s.isEmpty

/-- The query `User.findOne({ username })`: the first user of that name. -/
def findUser (db : Db) (username : JsStr) : Option User :=
  db.users.find? (fun u => decide (u.username = username))

/-- The handler of `POST /login`. -/
def postLogin (A : AuthLib) (P : Persistence) (db : Db) (body : LoginBody) : Response :=
  if falsyStr body.username || falsyStr body.password then
    ⟨400, Payload.message "Username and password are required"⟩
  else if !P.reachable then
    ⟨500, Payload.message "Internal Server Error"⟩
  else
    match findUser db (body.username.getD []) with
    | none => ⟨400, Payload.message "Invalid username or password"⟩
    | some user =>
      if !A.bcryptCompare (body.password.getD []) user.password then
        ⟨400, Payload.message "Invalid username or password"⟩
      else
        ⟨200, Payload.token (A.jwtSign user._id)⟩

/-! ## The session gate `authenticate` -/

/-- The segments of `s.split(' ')`. -/
def splitSpace : JsStr → List JsStr
  | [] => [[]]
  | c :: cs =>
    if c = ' ' then [] :: splitSpace cs
    else
      match splitSpace cs with
      | [] => [[c]]
      | seg :: segs => (c :: seg) :: segs

/-- What the middleware does with a request: call `next()` with the decoded
user, or answer itself. -/
inductive Gate where
  | next (user : JsStr) : Gate
  | respond (r : Response) : Gate
  deriving DecidableEq

/-- The middleware `authenticate`, on the value of `req.headers['authorization']`
(`none` when the header is not sent). -/
def authenticate (A : AuthLib) (authHeader : Option JsStr) : Gate :=
  if falsyStr authHeader then
    Gate.respond ⟨401, Payload.message "Access denied. No token provided."⟩
  else
    let token := (splitSpace (authHeader.getD []))[1]?
    if falsyStr token then
      Gate.respond ⟨401, Payload.message "Access denied. Invalid token format."⟩
    else
      match A.jwtVerify (token.getD []) with
      | some decoded => Gate.next decoded
      | none => Gate.respond ⟨400, Payload.message "Invalid token."⟩

/-- A protected route: the operation runs only when `authenticate` calls
`next()`; otherwise the gate's response is sent and the store is untouched. -/
def protect (A : AuthLib) (authHeader : Option JsStr) (db : Db)
    (operation : Db → Reply × Db) : Reply × Db :=
  match authenticate A authHeader with
  | Gate.next _ => operation db
  | Gate.respond r => (Reply.sent r, db)

/-- The shape `scheme value`: exactly two non-empty segments separated by one
space. -/
def twoPart (h : JsStr) : Bool :=
  match splitSpace h with
  | [scheme, value] => !scheme.isEmpty && !value.isEmpty
  | _ => false

/-! ## The annual rollover -/

/-- The three assignments of the `forEach` body of `resetannualCostForNewYear`. -/
def resetStudent (s : Student) : Student :=
  { s with
    servicePayed := JsVal.num JsNum.zero
    annualPayed := JsVal.num JsNum.zero
    isSessionOpen := JsVal.bool true }

/-- The filter `{ year: currentYear }` with a number. -/
def yearIs (y : JsNum) (s : Student) : Bool :=
  decide (s.year = JsVal.num y)

/-- The pass `resetannualCostForNewYear`, for the calendar year read from the
clock: every student found for that year is reset and saved on its own; a
document whose `save()` rejects stays as it was. -/
def resetannualCostForNewYear (P : Persistence) (currentYear : Int) (db : Db) : Db :=
  if P.reachable then
    { db with
      students := db.students.map (fun s =>
        if yearIs (JsNum.fin currentYear) s then
          if P.accepts (resetStudent s) then resetStudent s else s
        else s) }
  else db

/-- What `new Date()` gives at a tick: `getFullYear()` and `getMonth()` (January
is 0). -/
structure Clock where
  fullYear : Int
  month : Nat
  deriving DecidableEq

/-- The store together with the number of rollover passes started so far. -/
structure Sys where
  db : Db
  passes : Nat
  deriving DecidableEq

/-- One firing of the daily `setInterval` callback. -/
def tick (P : Persistence) (now : Clock) (σ : Sys) : Sys :=
  if now.month = 8 then
    { db := resetannualCostForNewYear P now.fullYear σ.db, passes := σ.passes + 1 }
  else σ

/-- A sequence of daily firings, each with its clock reading. -/
def runTicks (P : Persistence) (ticks : List Clock) (σ : Sys) : Sys :=
  ticks.foldl (fun acc now => tick P now acc) σ

/-! ## The casts of `studentSchema` -/

/-- The cast of the text of a query value to the schema type `Number`: `none`
is a cast error, the empty string becomes `null`, any other string is read by
`Number` and must not give `NaN`. -/
def castNumber (s : JsStr) : Option JsVal :=
  if s.isEmpty then some JsVal.null
  else if stringToNumber s = JsNum.nan then none
  else some (JsVal.num (stringToNumber s))

/-- The cast of a value to the schema type `Number` (the paths year,
serviceCost, servicePayed, annualCost, annualPayed): `undefined` and `null`
pass, a boolean becomes 0 or 1, a string is cast as by `castNumber`, and `NaN`
is a cast error (`none`). -/
def castNumberValue : JsVal → Option JsVal
  | JsVal.undefined => some JsVal.undefined
  | JsVal.null => some JsVal.null
  | JsVal.bool b => some (JsVal.num (toNumber (JsVal.bool b)))
  | JsVal.num n => if n = JsNum.nan then none else some (JsVal.num n)
  | JsVal.str s => castNumber s

/-- The cast of a value to the schema type `Boolean` (the paths isSessionOpen,
isNastrfication, isNastrficationPayed): `true`, `'true'`, `1`, `'1'`, `'yes'`
become `true`; `false`, `'false'`, `0`, `'0'`, `'no'` become `false`;
`undefined` and `null` pass; anything else is a cast error (`none`). -/
def castBoolean : JsVal → Option JsVal
  | JsVal.undefined => some JsVal.undefined
  | JsVal.null => some JsVal.null
  | JsVal.bool b => some (JsVal.bool b)
  | JsVal.num n =>
    if n = JsNum.fin 1 then some (JsVal.bool true)
    else if n = JsNum.fin 0 then some (JsVal.bool false)
    else none
  | JsVal.str s =>
    if s = "true".toList ∨ s = "1".toList ∨ s = "yes".toList then some (JsVal.bool true)
    else if s = "false".toList ∨ s = "0".toList ∨ s = "no".toList then
      some (JsVal.bool false)
    else none

/-- The value a write stores on a `Number` path for the value handed to it:
its cast.  A value that does not cast makes the whole call reject (the
`accepts` and `acceptsUpdate` of the persistence layer), so nothing is stored
for it; the function leaves it as it is. -/
def storedNumber (v : JsVal) : JsVal := (castNumberValue v).getD v

/-- The value a write stores on a `Boolean` path for the value handed to it,
as `storedNumber` for `castBoolean`. -/
def storedBoolean (v : JsVal) : JsVal := (castBoolean v).getD v

/-- Whether every typed path of an update casts without error. -/
def updateCasts (u : StudentUpdates) : Bool :=
  (castNumberValue u.year).isSome && (castNumberValue u.serviceCost).isSome
    && (castNumberValue u.servicePayed).isSome && (castNumberValue u.annualCost).isSome
    && (castNumberValue u.annualPayed).isSome && (castBoolean u.isSessionOpen).isSome
    && (castBoolean u.isNastrfication).isSome && (castBoolean u.isNastrficationPayed).isSome

/-- The document a model call stores for the object handed to it: year cast
to `Number`, the three flags cast to `Boolean`.  The `String` paths are left
as they are (a multipart body carries strings, on which that cast is the
identity), and so are the four amounts, which the handlers hand over as
numbers (on which the `Number` cast is the identity, `NaN` being a cast
error). -/
def castStudent (s : Student) : Student :=
  { s with
    year := storedNumber s.year
    isNastrfication := storedBoolean s.isNastrfication
    isNastrficationPayed := storedBoolean s.isNastrficationPayed
    isSessionOpen := storedBoolean s.isSessionOpen }

/-- Whether a path marked `required: true` of type `String` holds a value:
a non-empty string. -/
def requiredString (v : JsVal) : Bool :=
  match v with
  | JsVal.str t => !t.isEmpty
  | _ => false

/-- Whether a path marked `required: true` of type `Number` holds a value: it
casts to a number. -/
def requiredNumber (v : JsVal) : Bool :=
  match castNumberValue v with
  | some (JsVal.num _) => true
  | _ => false

/-- Whether a document passes `studentSchema`: every typed path casts and every
path marked `required: true` holds a value. -/
def schemaAccepts (s : Student) : Bool :=
  requiredString s.name && requiredString s.surname && requiredString s.parentName
    && requiredString s.study && requiredString s.mobile && requiredString s.parentMobile
    && requiredString s.prof && requiredNumber s.year && requiredNumber s.serviceCost
    && requiredNumber s.servicePayed && requiredNumber s.annualCost
    && (castNumberValue s.annualPayed).isSome && (castBoolean s.isSessionOpen).isSome
    && (castBoolean s.isNastrfication).isSome && (castBoolean s.isNastrficationPayed).isSome

/-! ## `PUT /students/:id` -/

/-- The object `updates` of the handler, with the attachment keys added for the
files that were sent. -/
def buildUpdates (body : StudentBody) (files : Files) : StudentUpdates :=
  { name := body.name
    surname := body.surname
    parentName := body.parentName
    study := body.study
    mobile := body.mobile
    parentMobile := body.parentMobile
    prof := body.prof
    year := body.year
    isSessionOpen := body.isSessionOpen
    isNastrficationPayed := body.isNastrficationPayed
    isNastrfication := body.isNastrfication
    serviceCost := JsVal.num (numberOrZero body.serviceCost)
    servicePayed := JsVal.num (numberOrZero body.servicePayed)
    annualCost := JsVal.num (numberOrZero body.annualCost)
    annualPayed := JsVal.num (numberOrZero body.annualPayed)
    passport := files.passport.map (fun f => JsVal.str f.path)
    diplom := files.diplom.map (fun f => JsVal.str f.path)
    image := files.image.map (fun f => JsVal.str f.path) }

/-- The effect of a key that is present in an update on the stored value. -/
def setKey (P : Persistence) (v old : JsVal) : JsVal :=
  if v = JsVal.undefined then
    if P.omitUndefined then old else JsVal.null
  else v

/-- The effect of a key that may be missing from an update. -/
def setOptionalKey (P : Persistence) (v : Option JsVal) (old : JsVal) : JsVal :=
  match v with
  | none => old
  | some x => setKey P x old

/-- The document after the update `u` is applied to it: each key of the update
is written with the cast of its value for the type of its path (year to
`Number`, the three flags to `Boolean`).  The `String` paths and the four
amounts are written as they are: the body of a multipart request carries
strings, and the handler hands the amounts over as numbers other than `NaN`. -/
def applyUpdates (P : Persistence) (u : StudentUpdates) (s : Student) : Student :=
  { _id := s._id
    name := setKey P u.name s.name
    surname := setKey P u.surname s.surname
    parentName := setKey P u.parentName s.parentName
    study := setKey P u.study s.study
    mobile := setKey P u.mobile s.mobile
    parentMobile := setKey P u.parentMobile s.parentMobile
    prof := setKey P u.prof s.prof
    year := setKey P (storedNumber u.year) s.year
    serviceCost := setKey P u.serviceCost s.serviceCost
    servicePayed := setKey P u.servicePayed s.servicePayed
    passport := setOptionalKey P u.passport s.passport
    isNastrfication := setKey P (storedBoolean u.isNastrfication) s.isNastrfication
    isNastrficationPayed :=
      setKey P (storedBoolean u.isNastrficationPayed) s.isNastrficationPayed
    isSessionOpen := setKey P (storedBoolean u.isSessionOpen) s.isSessionOpen
    diplom := setOptionalKey P u.diplom s.diplom
    image := setOptionalKey P u.image s.image
    annualCost := setKey P u.annualCost s.annualCost
    annualPayed := setKey P u.annualPayed s.annualPayed }

/-- The query `Student.findById(id)`. -/
def findById (db : Db) (id : JsStr) : Option Student :=
  db.students.find? (fun s => decide (s._id = id))

/-- Replace the first document with the given id by its image under `f`. -/
def replaceFirst (id : JsStr) (f : Student → Student) : List Student → List Student
  | [] => []
  | s :: rest => if s._id = id then f s :: rest else s :: replaceFirst id f rest

/-- The call `Student.findByIdAndUpdate(id, updates, { new: true })`: `none`
when it rejects, otherwise the updated document (or `null`) and the store. -/
def findByIdAndUpdate (P : Persistence) (db : Db) (id : JsStr) (u : StudentUpdates) :
    Option (Option Student × Db) :=
  if !P.reachable || !P.acceptsUpdate u then none
  else
    match findById db id with
    | none => some (none, db)
    | some s =>
      some (some (applyUpdates P u s),
        { db with students := replaceFirst id (applyUpdates P u) db.students })

/-- The handler of `PUT /students/:id`.  Line 187 reads `req.files['passport']`
before the `try`: without `req.files` the handler throws there. -/
def putStudent (P : Persistence) (db : Db) (id : JsStr) (body : StudentBody)
    (reqFiles : Option Files) : Reply × Db :=
  match reqFiles with
  | none => (Reply.thrown, db)
  | some files =>
    match findByIdAndUpdate P db id (buildUpdates body files) with
    | none => (Reply.sent ⟨500, Payload.message "Internal Server Error"⟩, db)
    | some (none, db') => (Reply.sent ⟨404, Payload.message "Student not found"⟩, db')
    | some (some updatedStudent, db') =>
      (Reply.sent ⟨200, Payload.student "Student updated successfully" updatedStudent⟩, db')

/-! ## `POST /students` -/

/-- The reference a created record keeps for an uploaded file:
`uploads/` followed by the stored file name, or `null` without a file. -/
def uploadRef (f : Option UploadedFile) : JsVal :=
  match f with
  | some file => JsVal.str ("uploads/".toList ++ file.filename)
  | none => JsVal.null

/-- The test of line 218: some required field is missing. -/
def missingRequired (body : StudentBody) : Bool :=
  !body.name.truthy || !body.surname.truthy || !body.parentName.truthy
    || !body.study.truthy || !body.prof.truthy
    || decide (body.serviceCost = JsVal.undefined)
    || decide (body.servicePayed = JsVal.undefined)
    || decide (body.annualCost = JsVal.undefined)

/-- The object handed to `new Student({ ... })` by the handler, with the id the
model generates for it. -/
def newStudent (newId : JsStr) (body : StudentBody) (files : Files) : Student :=
  { _id := newId
    name := body.name
    surname := body.surname
    parentName := body.parentName
    study := body.study
    year := body.year
    prof := body.prof
    mobile := body.mobile
    isSessionOpen := body.isSessionOpen
    isNastrficationPayed := body.isNastrficationPayed
    isNastrfication := body.isNastrfication
    parentMobile := body.parentMobile
    serviceCost := JsVal.num (numberOrZero body.serviceCost)
    servicePayed := JsVal.num (numberOrZero body.servicePayed)
    annualCost := JsVal.num (numberOrZero body.annualCost)
    annualPayed := JsVal.num (toNumber body.annualPayed)
    passport := uploadRef files.passport
    diplom := uploadRef files.diplom
    image := uploadRef files.image }

/-- The handler of `POST /students`.  Line 214 reads `req.files['passport']`
before the test of line 218 and before the `try`: without `req.files` the
handler throws there.  The document saved and sent back is the cast of the
object handed to the model. -/
def postStudents (P : Persistence) (db : Db) (newId : JsStr) (body : StudentBody)
    (reqFiles : Option Files) : Reply × Db :=
  match reqFiles with
  | none => (Reply.thrown, db)
  | some files =>
    if missingRequired body then
      (Reply.sent ⟨400, Payload.message "All required fields must be provided"⟩, db)
    else if P.reachable && P.accepts (newStudent newId body files) then
      (Reply.sent ⟨201, Payload.student "Student added successfully"
          (castStudent (newStudent newId body files))⟩,
        { db with students := db.students ++ [castStudent (newStudent newId body files)] })
    else
      (Reply.sent ⟨500, Payload.message "Internal Server Error"⟩, db)

/-! ## The read routes -/

/-- The handler of `GET /students`. -/
def getStudents (P : Persistence) (db : Db) : Response :=
  if P.reachable then ⟨200, Payload.students db.students⟩
  else ⟨500, Payload.message "Server error"⟩

/-- Whether a document matches the filter `{ year: q }` for a cast value `q`:
equality, and for `null` also a missing path. -/
def matchesYear (q : JsVal) (s : Student) : Bool :=
  if q = JsVal.null then decide (s.year = JsVal.null ∨ s.year = JsVal.undefined)
  else decide (s.year = q)

/-- The handler of `GET /students/year/:year`, on the text of the route
parameter. -/
def getStudentsByYear (P : Persistence) (db : Db) (year : JsStr) : Response :=
  if !P.reachable then ⟨500, Payload.message "Server error"⟩
  else
    match castNumber year with
    | none => ⟨500, Payload.message "Server error"⟩
    | some q =>
      let students := db.students.filter (matchesYear q)
      if students.length = 0 then
        ⟨404, Payload.message "No students found for the selected year"⟩
      else ⟨200, Payload.students students⟩

/-- The handler of `GET /students/:id`. -/
def getStudentById (P : Persistence) (db : Db) (id : JsStr) : Response :=
  if !P.reachable then ⟨500, Payload.message "Internal Server Error"⟩
  else
    match findById db id with
    | none => ⟨404, Payload.message "Student not found"⟩
    | some student => ⟨200, Payload.doc student⟩

/-! ## Sample data -/

/-- A persistence layer that serves every call, enforces `studentSchema` on a
save and the casts on an update, and drops `undefined` keys. -/
def servingStore : Persistence :=
  { reachable := true
    accepts := schemaAccepts
    acceptsUpdate := updateCasts
    omitUndefined := true }

/-- A create request sent as JSON with the field annualCost left out: the
body is parsed, and `upload` sets no `req.files`. -/
def jsonBody : StudentBody :=
  { name := JsVal.str "A".toList
    surname := JsVal.str "B".toList
    parentName := JsVal.str "C".toList
    study := JsVal.str "CS".toList
    prof := JsVal.str "eng".toList
    serviceCost := JsVal.num (JsNum.fin 1000)
    servicePayed := JsVal.num (JsNum.fin 200)
    annualPayed := JsVal.num (JsNum.fin 0)
    annualCost := JsVal.undefined
    year := JsVal.num (JsNum.fin 2024)
    mobile := JsVal.str "555".toList
    parentMobile := JsVal.str "556".toList
    isNastrfication := JsVal.bool false
    isNastrficationPayed := JsVal.bool false
    isSessionOpen := JsVal.bool true }

/-- A request without files. -/
def noFiles : Files := { passport := none, diplom := none, image := none }

/-- A complete create request with plausible values. -/
def fullBody : StudentBody :=
  { name := JsVal.str "A".toList
    surname := JsVal.str "B".toList
    parentName := JsVal.str "C".toList
    study := JsVal.str "CS".toList
    prof := JsVal.str "eng".toList
    serviceCost := JsVal.str "1000".toList
    servicePayed := JsVal.str "200".toList
    annualPayed := JsVal.str "0".toList
    annualCost := JsVal.str "500".toList
    year := JsVal.str "2024".toList
    mobile := JsVal.str "555".toList
    parentMobile := JsVal.str "556".toList
    isNastrfication := JsVal.str "false".toList
    isNastrficationPayed := JsVal.str "false".toList
    isSessionOpen := JsVal.str "true".toList }

/-- An update request that carries the field `name` and nothing else. -/
def nameOnlyBody : StudentBody :=
  { name := JsVal.str "Z".toList
    surname := JsVal.undefined
    parentName := JsVal.undefined
    study := JsVal.undefined
    prof := JsVal.undefined
    serviceCost := JsVal.undefined
    servicePayed := JsVal.undefined
    annualPayed := JsVal.undefined
    annualCost := JsVal.undefined
    year := JsVal.undefined
    mobile := JsVal.undefined
    parentMobile := JsVal.undefined
    isNastrfication := JsVal.undefined
    isNastrficationPayed := JsVal.undefined
    isSessionOpen := JsVal.undefined }

/-- A stored student of the year 2024 with payments and a passport on file. -/
def storedStudent : Student :=
  { _id := "s1".toList
    name := JsVal.str "A".toList
    surname := JsVal.str "B".toList
    parentName := JsVal.str "C".toList
    study := JsVal.str "CS".toList
    mobile := JsVal.str "555".toList
    parentMobile := JsVal.str "556".toList
    prof := JsVal.str "eng".toList
    year := JsVal.num (JsNum.fin 2024)
    serviceCost := JsVal.num (JsNum.fin 1000)
    servicePayed := JsVal.num (JsNum.fin 200)
    passport := JsVal.str "uploads/1-p.pdf".toList
    isNastrfication := JsVal.bool false
    isNastrficationPayed := JsVal.bool false
    isSessionOpen := JsVal.bool false
    diplom := JsVal.null
    image := JsVal.null
    annualCost := JsVal.num (JsNum.fin 500)
    annualPayed := JsVal.num (JsNum.fin 100) }

/-- A store holding the sample student and one of another year. -/
def sampleDb : Db :=
  { users := [{ _id := "u1".toList, username := "admin".toList, password := "hash".toList }]
    students := [storedStudent, { storedStudent with _id := "s2".toList, year := JsVal.num (JsNum.fin 2023) }] }

/-- Credential primitives for the examples: the password `secret` verifies
against the stored hash `hash`, and the token of a user id is that id after
the prefix `tok.`. -/
def sampleAuth : AuthLib :=
  { bcryptCompare := fun password hash =>
      decide (password = "secret".toList ∧ hash = "hash".toList)
    jwtSign := fun userId => "tok.".toList ++ userId
    jwtVerify := fun t =>
      if t.take 4 = "tok.".toList then some (t.drop 4) else none }

/-! ## Decimal text of a year -/

/-- The character of a decimal digit. -/
def digitChar (d : Nat) : Char := Char.ofNat (48 + d)

/-- The decimal text of a natural number, without leading zeros. -/
def decimalText (n : Nat) : JsStr :=
  if n = 0 then ['0'] else (Nat.digits 10 n).reverse.map digitChar

/-! ## Relations used in the statements -/

/-- Every field other than servicePayed, annualPayed and isSessionOpen is the
same in `s'` as in `s`. -/
def SameElsewhere (s s' : Student) : Prop :=
  s'._id = s._id ∧ s'.name = s.name ∧ s'.surname = s.surname
    ∧ s'.parentName = s.parentName ∧ s'.study = s.study ∧ s'.mobile = s.mobile
    ∧ s'.parentMobile = s.parentMobile ∧ s'.prof = s.prof ∧ s'.year = s.year
    ∧ s'.serviceCost = s.serviceCost ∧ s'.passport = s.passport
    ∧ s'.isNastrfication = s.isNastrfication
    ∧ s'.isNastrficationPayed = s.isNastrficationPayed
    ∧ s'.diplom = s.diplom ∧ s'.image = s.image ∧ s'.annualCost = s.annualCost

/-- The frame of a pass for the year `y`: a record of another year is
identical to what it was, and on any record only the three reset fields can
differ. -/
def Framed (y : JsNum) (s s' : Student) : Prop :=
  SameElsewhere s s' ∧ (s.year ≠ JsVal.num y → s' = s)

/-- The relation between a record before and after a completed pass for the
year `y`: the frame, and the three fields reset on a record of that year. -/
def RolledOver (y : JsNum) (s s' : Student) : Prop :=
  Framed y s s'
    ∧ (s.year = JsVal.num y →
        s'.servicePayed = JsVal.num JsNum.zero
        ∧ s'.annualPayed = JsVal.num JsNum.zero
        ∧ s'.isSessionOpen = JsVal.bool true)

/-- The attachment reference a record holds after an update: the path of the
new file of that kind when one was sent, the previous reference otherwise. -/
def mergedRef (file : Option UploadedFile) (old : JsVal) : JsVal :=
  match file with
  | some f => JsVal.str f.path
  | none => old

/-- How an update treats one of the seven text fields (name, surname,
parentName, study, mobile, parentMobile, prof): a string carried by the
request replaces the stored value, and an absent field is kept when the
persistence layer drops `undefined` keys. -/
def ScalarAfter (P : Persistence) (sent old new : JsVal) : Prop :=
  (∀ t : JsStr, sent = JsVal.str t → new = JsVal.str t)
    ∧ (sent = JsVal.undefined → P.omitUndefined = true → new = old)

/-- How an update treats year (with the cast to `Number`) and the three flags
(with the cast to `Boolean`): the cast of the value carried by the request
replaces the stored value, and an absent field is kept when the persistence
layer drops `undefined` keys. -/
def CastAfter (P : Persistence) (cast : JsVal → Option JsVal) (sent old new : JsVal) : Prop :=
  (∀ v : JsVal, sent ≠ JsVal.undefined → cast sent = some v → new = v)
    ∧ (sent = JsVal.undefined → P.omitUndefined = true → new = old)

/-- How an update treats one of the four amounts: it is always written, as
`Number(sent) || 0`, hence as 0 when the request does not carry it. -/
def MoneyAfter (sent new : JsVal) : Prop :=
  new = JsVal.num (numberOrZero sent)
    ∧ (sent = JsVal.undefined → new = JsVal.num JsNum.zero)

/-! ## Lemmas on the coercions -/

theorem numberOrZero_eq (v : JsVal) :
    numberOrZero v = if toNumber v = JsNum.nan then JsNum.zero else toNumber v := by
  unfold numberOrZero
  cases h : toNumber v with
  | nan => simp [JsNum.truthy]
  | inf b => simp [JsNum.truthy]
  | fin q =>
    by_cases hq : q = 0
    · simp [JsNum.truthy, hq, JsNum.zero]
    · simp [JsNum.truthy, hq]

theorem numberOrZero_ne_nan (v : JsVal) : numberOrZero v ≠ JsNum.nan := by
  rw [numberOrZero_eq]
  split
  · simp [JsNum.zero]
  · assumption

/-! ## `Number` on decimal digits -/

theorem digitChar_mem (d : Nat) (h : d < 10) : digitChar d ∈ "0123456789".toList := by
  interval_cases d <;> decide

theorem digitVal_digitChar (d : Nat) (h : d < 10) : digitVal 10 (digitChar d) = some d := by
  interval_cases d <;> decide

theorem digitsVal_map (l : List Nat) (h : ∀ d ∈ l, d < 10) :
    ∀ acc, digitsVal 10 acc (l.map digitChar) = some (l.foldl (fun a d => a * 10 + d) acc) := by
  induction l with
  | nil => intro acc; rfl
  | cons d t ih =>
    intro acc
    simp only [List.map_cons, digitsVal, digitVal_digitChar d (h d (List.mem_cons_self d t)),
      List.foldl_cons]
    exact ih (fun x hx => h x (List.mem_cons_of_mem d hx)) _

theorem foldl_reverse_digits (l : List Nat) :
    l.reverse.foldl (fun a d => a * 10 + d) 0 = Nat.ofDigits 10 l := by
  induction l with
  | nil => rfl
  | cons d t ih =>
    simp only [List.reverse_cons, List.foldl_append, List.foldl_cons, List.foldl_nil, ih,
      Nat.ofDigits_cons]
    ring

theorem dropWhile_head {p : Char → Bool} (l : JsStr) (h : ∀ c, l.head? = some c → p c = false) :
    l.dropWhile p = l := by
  cases l with
  | nil => rfl
  | cons a t => simp [List.dropWhile, h a rfl]

theorem splitFirst_none (p : Char → Bool) (l : JsStr) (h : ∀ c ∈ l, p c = false) :
    splitFirst p l = (l, none) := by
  induction l with
  | nil => rfl
  | cons a t ih =>
    simp [splitFirst, h a (List.mem_cons_self a t),
      ih (fun c hc => h c (List.mem_cons_of_mem a hc))]

theorem scale10_zero (m : Nat) : scale10 m 0 = (m : ℚ) := by
  show scale10 m (Int.ofNat 0) = _
  simp [scale10]

theorem digit_facts : ∀ c ∈ "0123456789".toList,
    isStrWhiteSpace c = false ∧ c ≠ 'e' ∧ c ≠ 'E' ∧ c ≠ '.' ∧ c ≠ '+' ∧ c ≠ '-'
      ∧ c ≠ 'x' ∧ c ≠ 'X' ∧ c ≠ 'o' ∧ c ≠ 'O' ∧ c ≠ 'b' ∧ c ≠ 'B' ∧ c ≠ 'I' := by
  decide

theorem trimWhite_digits (ds : JsStr) (hd : ∀ c ∈ ds, c ∈ "0123456789".toList) :
    trimWhite ds = ds := by
  unfold trimWhite
  rw [dropWhile_head ds (fun c hc => (digit_facts c (hd c (List.mem_of_mem_head? hc))).1)]
  rw [dropWhile_head ds.reverse (fun c hc =>
    (digit_facts c (hd c (List.mem_reverse.mp (List.mem_of_mem_head? hc)))).1)]
  exact List.reverse_reverse ds

theorem decimalLiteral_digits (ds : JsStr) (hne : ds ≠ [])
    (hd : ∀ c ∈ ds, c ∈ "0123456789".toList) (v : Nat)
    (hv : digitsVal 10 0 ds = some v) :
    decimalLiteral false ds = JsNum.fin v := by
  have hInf : ds ≠ "Infinity".toList := by
    intro h
    have := (digit_facts 'I' (hd 'I' (by rw [h]; decide))).2.2.2.2.2.2.2.2.2.2.2.2
    exact this rfl
  have h1 : splitFirst (fun c => c = 'e' || c = 'E') ds = (ds, none) :=
    splitFirst_none _ ds (fun c hc => by
      have := digit_facts c (hd c hc)
      simp [this.2.1, this.2.2.1])
  have h2 : splitFirst (fun c => c = '.') ds = (ds, none) :=
    splitFirst_none _ ds (fun c hc => by
      have := digit_facts c (hd c hc)
      simp [this.2.2.2.1])
  have hemp : ds.isEmpty = false := by
    cases ds with
    | nil => exact absurd rfl hne
    | cons a t => rfl
  have hu : unsignedDecimal ds = some (v : ℚ) := by
    simp [unsignedDecimal, h1, h2, hemp, hv, scale10_zero]
  unfold decimalLiteral
  rw [if_neg hInf, hu]
  simp

theorem stringToNumber_digits (ds : JsStr) (hne : ds ≠ [])
    (hd : ∀ c ∈ ds, c ∈ "0123456789".toList) (v : Nat)
    (hv : digitsVal 10 0 ds = some v) :
    stringToNumber ds = JsNum.fin v := by
  unfold stringToNumber
  rw [trimWhite_digits ds hd]
  split
  · exact absurd rfl hne
  all_goals first
    | exact decimalLiteral_digits _ hne hd v hv
    | (exfalso
       have hx := digit_facts _ (hd _ (List.mem_cons_of_mem _ (List.mem_cons_self _ _)))
       simp at hx)
    | (exfalso
       have hx := digit_facts _ (hd _ (List.mem_cons_self _ _))
       simp at hx)

theorem castNumber_decimalText (n : Nat) :
    castNumber (decimalText n) = some (JsVal.num (JsNum.fin n)) := by
  have key : ∀ l : List Nat, l ≠ [] → (∀ d ∈ l, d < 10) →
      castNumber (l.map digitChar)
        = some (JsVal.num (JsNum.fin ((l.foldl (fun a d => a * 10 + d) 0 : Nat) : ℚ))) := by
    intro l hl hlt
    have hne : l.map digitChar ≠ [] := by simpa using hl
    have hd : ∀ c ∈ l.map digitChar, c ∈ "0123456789".toList := by
      intro c hc
      obtain ⟨d, hdl, rfl⟩ := List.mem_map.mp hc
      exact digitChar_mem d (hlt d hdl)
    have hs := stringToNumber_digits (l.map digitChar) hne hd _ (digitsVal_map l hlt 0)
    have hemp : (l.map digitChar).isEmpty = false := by
      cases l with
      | nil => exact absurd rfl hl
      | cons a t => rfl
    simp [castNumber, hemp, hs]
  unfold decimalText
  split
  · next h => subst h; decide
  · next h =>
    have hl : (Nat.digits 10 n).reverse ≠ [] := by
      simpa using (Nat.digits_ne_nil_iff_ne_zero.mpr h)
    have hlt : ∀ d ∈ (Nat.digits 10 n).reverse, d < 10 := by
      intro d hdm
      exact Nat.digits_lt_base (by norm_num) (List.mem_reverse.mp hdm)
    rw [key _ hl hlt, foldl_reverse_digits, Nat.ofDigits_digits]

/-! ## Creation -/

theorem postStudents_multipart_absent_required (P : Persistence) (db : Db) (newId : JsStr)
    (body : StudentBody) (files : Files)
    (h : body.name = JsVal.undefined ∨ body.surname = JsVal.undefined
      ∨ body.parentName = JsVal.undefined ∨ body.study = JsVal.undefined
      ∨ body.prof = JsVal.undefined ∨ body.serviceCost = JsVal.undefined
      ∨ body.servicePayed = JsVal.undefined ∨ body.annualCost = JsVal.undefined) :
    postStudents P db newId body (some files)
        = (Reply.sent ⟨400, Payload.message "All required fields must be provided"⟩, db)
      ∧ ∀ (A : AuthLib) (authHeader : Option JsStr),
          (protect A authHeader db (fun d => postStudents P d newId body (some files))).2 = db
          ∧ ∀ user, authenticate A authHeader = Gate.next user →
              protect A authHeader db (fun d => postStudents P d newId body (some files))
                = (Reply.sent ⟨400, Payload.message "All required fields must be provided"⟩,
                    db) := by
  have hm : ∀ d, postStudents P d newId body (some files)
      = (Reply.sent ⟨400, Payload.message "All required fields must be provided"⟩, d) := by
    intro d
    have : missingRequired body = true := by
      unfold missingRequired
      rcases h with h | h | h | h | h | h | h | h <;> simp [h, JsVal.truthy]
    simp [postStudents, this]
  refine ⟨hm db, ?_⟩
  intro A authHeader
  constructor
  · unfold protect
    cases authenticate A authHeader <;> simp [hm]
  · intro user hu
    simp [protect, hu, hm]

/-- C1 at its failing input: a create request sent as JSON, admitted by the
session gate, with annualCost absent.  `req.files` is not set, the handler
throws at line 214 before the test of line 218, and no response is sent, so
the request is not answered 400; the store is left as it was.  A multipart
request with the same body is answered 400. -/
theorem postStudents_json_request_throws :
    jsonBody.annualCost = JsVal.undefined
      ∧ authenticate sampleAuth (some "Bearer tok.u1".toList) = Gate.next "u1".toList
      ∧ protect sampleAuth (some "Bearer tok.u1".toList) sampleDb
          (fun d => postStudents servingStore d "s3".toList jsonBody none)
        = (Reply.thrown, sampleDb)
      ∧ protect sampleAuth (some "Bearer tok.u1".toList) sampleDb
          (fun d => postStudents servingStore d "s3".toList jsonBody none)
        ≠ (Reply.sent ⟨400, Payload.message "All required fields must be provided"⟩, sampleDb)
      ∧ protect sampleAuth (some "Bearer tok.u1".toList) sampleDb
          (fun d => postStudents servingStore d "s3".toList jsonBody (some noFiles))
        = (Reply.sent ⟨400, Payload.message "All required fields must be provided"⟩,
            sampleDb) := by
  refine ⟨rfl, by decide, by decide, by decide, by decide⟩

/-- C5: for a create request that passes the required-field check, the
document built for the new record has serviceCost, servicePayed and annualCost
equal to `Number` of the supplied value, or 0 when that is `NaN`; annualPayed
is `Number` of the supplied value without a default, hence `NaN` and not 0
when the field is absent.  The handler answers 201 with that document, cast
by the schema with the four amounts unchanged, and appends it when the
persistence layer accepts it, and 500 otherwise. -/
theorem postStudents_numeric_fields (P : Persistence) (db : Db) (newId : JsStr)
    (body : StudentBody) (files : Files) (h : missingRequired body = false) :
    (newStudent newId body files).serviceCost
        = JsVal.num (if toNumber body.serviceCost = JsNum.nan then JsNum.zero
            else toNumber body.serviceCost)
      ∧ (newStudent newId body files).servicePayed
        = JsVal.num (if toNumber body.servicePayed = JsNum.nan then JsNum.zero
            else toNumber body.servicePayed)
      ∧ (newStudent newId body files).annualCost
        = JsVal.num (if toNumber body.annualCost = JsNum.nan then JsNum.zero
            else toNumber body.annualCost)
      ∧ (newStudent newId body files).annualPayed = JsVal.num (toNumber body.annualPayed)
      ∧ (body.annualPayed = JsVal.undefined →
          (newStudent newId body files).annualPayed = JsVal.num JsNum.nan
          ∧ (newStudent newId body files).annualPayed ≠ JsVal.num JsNum.zero)
      ∧ postStudents P db newId body (some files)
        = (if P.reachable && P.accepts (newStudent newId body files) then
            (Reply.sent ⟨201, Payload.student "Student added successfully"
                (castStudent (newStudent newId body files))⟩,
              { db with
                students := db.students ++ [castStudent (newStudent newId body files)] })
          else (Reply.sent ⟨500, Payload.message "Internal Server Error"⟩, db))
      ∧ (castStudent (newStudent newId body files)).serviceCost
          = (newStudent newId body files).serviceCost
      ∧ (castStudent (newStudent newId body files)).servicePayed
          = (newStudent newId body files).servicePayed
      ∧ (castStudent (newStudent newId body files)).annualCost
          = (newStudent newId body files).annualCost
      ∧ (castStudent (newStudent newId body files)).annualPayed
          = (newStudent newId body files).annualPayed := by
  refine ⟨?_, ?_, ?_, rfl, ?_, ?_, rfl, rfl, rfl, rfl⟩
  · simp only [newStudent, numberOrZero_eq]
  · simp only [newStudent, numberOrZero_eq]
  · simp only [newStudent, numberOrZero_eq]
  · intro ha
    simp [newStudent, ha, toNumber, JsNum.zero]
  · simp [postStudents, h]

/-- C5 at a complete request, with and without annualPayed. -/
theorem postStudents_numeric_fields_witness :
    (newStudent "s3".toList { fullBody with annualPayed := JsVal.undefined } noFiles).annualPayed
        = JsVal.num JsNum.nan
      ∧ (postStudents servingStore sampleDb "s3".toList fullBody (some noFiles)).1
        = Reply.sent ⟨201, Payload.student "Student added successfully"
            (castStudent (newStudent "s3".toList fullBody noFiles))⟩ := by
  refine ⟨((postStudents_numeric_fields servingStore sampleDb "s3".toList
      { fullBody with annualPayed := JsVal.undefined } noFiles (by decide)).2.2.2.2.1 rfl).1, ?_⟩
  rw [(postStudents_numeric_fields servingStore sampleDb "s3".toList fullBody noFiles
    (by decide)).2.2.2.2.2.1]
  decide

/-- C7 as stated fails: a create request that carries every field, with
serviceCost `"-5"`, is accepted with status 201 and the record written has
serviceCost -5, which is not `>= 0`. -/
theorem postStudents_negative_cost :
    ∃ s, postStudents servingStore sampleDb "s3".toList
          { fullBody with serviceCost := JsVal.str "-5".toList } (some noFiles)
        = (Reply.sent ⟨201, Payload.student "Student added successfully" s⟩,
            { sampleDb with students := sampleDb.students ++ [s] })
      ∧ s.serviceCost = JsVal.num (JsNum.fin (-5))
      ∧ (JsNum.fin (-5)).nonneg = false := by
  refine ⟨castStudent (newStudent "s3".toList
    { fullBody with serviceCost := JsVal.str "-5".toList } noFiles), by decide, by decide, ?_⟩
  simp [JsNum.nonneg]

/-- C7, amended: the serviceCost, servicePayed and annualCost written by
create, and these three and annualPayed written by update, are numbers that
are never `NaN`: `Number` of the input, or 0 when that is `NaN` (a missing or
non-numeric input); such a field is `>= 0` exactly when the input is
non-numeric, missing or a number `>= 0`, so a negative input is written as
it is.  Create writes annualPayed as `Number` of the input, with no default
value. -/
theorem money_fields_written (P : Persistence) (newId : JsStr) (body : StudentBody)
    (files : Files) (s : Student) :
    (∀ v : JsVal, numberOrZero v ≠ JsNum.nan
        ∧ (toNumber v = JsNum.nan → numberOrZero v = JsNum.zero)
        ∧ (toNumber v ≠ JsNum.nan → numberOrZero v = toNumber v)
        ∧ ((numberOrZero v).nonneg = true
            ↔ (toNumber v = JsNum.nan ∨ (toNumber v).nonneg = true)))
      ∧ (newStudent newId body files).serviceCost = JsVal.num (numberOrZero body.serviceCost)
      ∧ (newStudent newId body files).servicePayed = JsVal.num (numberOrZero body.servicePayed)
      ∧ (newStudent newId body files).annualCost = JsVal.num (numberOrZero body.annualCost)
      ∧ (newStudent newId body files).annualPayed = JsVal.num (toNumber body.annualPayed)
      ∧ (applyUpdates P (buildUpdates body files) s).serviceCost
          = JsVal.num (numberOrZero body.serviceCost)
      ∧ (applyUpdates P (buildUpdates body files) s).servicePayed
          = JsVal.num (numberOrZero body.servicePayed)
      ∧ (applyUpdates P (buildUpdates body files) s).annualCost
          = JsVal.num (numberOrZero body.annualCost)
      ∧ (applyUpdates P (buildUpdates body files) s).annualPayed
          = JsVal.num (numberOrZero body.annualPayed) := by
  have hset : ∀ (n : JsNum) (old : JsVal), setKey P (JsVal.num n) old = JsVal.num n := by
    intro n old
    simp [setKey]
  refine ⟨?_, rfl, rfl, rfl, rfl, hset _ s.serviceCost, hset _ s.servicePayed,
    hset _ s.annualCost, hset _ s.annualPayed⟩
  intro v
  refine ⟨numberOrZero_ne_nan v, ?_, ?_, ?_⟩
  · intro hv
    simp [numberOrZero_eq, hv]
  · intro hv
    simp [numberOrZero_eq, hv]
  · rw [numberOrZero_eq]
    by_cases hv : toNumber v = JsNum.nan
    · simp [hv, JsNum.zero, JsNum.nonneg]
    · simp [hv]

/-- The amended C7 at a negative and at a missing input. -/
theorem money_fields_written_witness :
    numberOrZero (JsVal.str "-5".toList) = JsNum.fin (-5)
      ∧ numberOrZero JsVal.undefined = JsNum.zero := by
  obtain ⟨h, _⟩ := money_fields_written servingStore "s3".toList fullBody noFiles storedStudent
  exact ⟨(h (JsVal.str "-5".toList)).2.2.1 (by decide), (h JsVal.undefined).2.1 rfl⟩

/-! ## Rollover -/

theorem forall₂_map_self {α : Type} {R : α → α → Prop} (f : α → α) (l : List α)
    (h : ∀ a ∈ l, R a (f a)) : List.Forall₂ R l (l.map f) := by
  induction l with
  | nil => exact List.Forall₂.nil
  | cons a t ih =>
    rw [List.map_cons]
    exact List.Forall₂.cons (h a (List.mem_cons_self a t))
      (ih (fun x hx => h x (List.mem_cons_of_mem a hx)))

theorem forall₂_source {α : Type} {R : α → α → Prop} {l l' : List α}
    (h : List.Forall₂ R l l') : ∀ b ∈ l', ∃ a ∈ l, R a b := by
  induction h with
  | nil => intro b hb; cases hb
  | cons hab _ ih =>
    intro b hb
    rcases List.mem_cons.mp hb with rfl | hb
    · exact ⟨_, List.mem_cons_self _ _, hab⟩
    · obtain ⟨a, ha, hr⟩ := ih b hb
      exact ⟨a, List.mem_cons_of_mem _ ha, hr⟩

theorem sameElsewhere_refl (s : Student) : SameElsewhere s s := by
  simp [SameElsewhere]

theorem sameElsewhere_reset (s : Student) : SameElsewhere s (resetStudent s) := by
  simp [SameElsewhere, resetStudent]

theorem framed_step (P : Persistence) (y : JsNum) (s : Student) :
    Framed y s (if yearIs y s then
      if P.accepts (resetStudent s) then resetStudent s else s
    else s) := by
  by_cases hy : s.year = JsVal.num y
  · have hyes : yearIs y s = true := by simp [yearIs, hy]
    simp only [hyes, if_true]
    cases P.accepts (resetStudent s)
    · exact ⟨sameElsewhere_refl s, fun _ => rfl⟩
    · exact ⟨sameElsewhere_reset s, fun hne => absurd hy hne⟩
  · have hno : yearIs y s = false := by simp [yearIs, hy]
    simp only [hno]
    exact ⟨sameElsewhere_refl s, fun _ => rfl⟩

theorem rolledOver_step (P : Persistence) (y : JsNum) (s : Student)
    (hs : s.year = JsVal.num y → P.accepts (resetStudent s) = true) :
    RolledOver y s (if yearIs y s then
      if P.accepts (resetStudent s) then resetStudent s else s
    else s) := by
  refine ⟨framed_step P y s, ?_⟩
  intro hy
  have hyes : yearIs y s = true := by simp [yearIs, hy]
  simp only [hyes, hs hy, if_true]
  simp [resetStudent]

/-- C2: a rollover pass for the calendar year Y keeps the records in number
and order, leaves every record of another year identical to what it was, and
changes no field other than servicePayed, annualPayed and isSessionOpen on any
record; when the store serves the pass and performs the save of each record of
the year Y, every such record has servicePayed 0, annualPayed 0 and
isSessionOpen true afterwards, so every record stored with year Y has the
three fields reset. -/
theorem rollover_pass (P : Persistence) (Y : Int) (db : Db) :
    (resetannualCostForNewYear P Y db).users = db.users
      ∧ List.Forall₂ (Framed (JsNum.fin Y)) db.students
          (resetannualCostForNewYear P Y db).students
      ∧ (P.reachable = true →
          (∀ s ∈ db.students, s.year = JsVal.num (JsNum.fin Y) →
            P.accepts (resetStudent s) = true) →
          List.Forall₂ (RolledOver (JsNum.fin Y)) db.students
              (resetannualCostForNewYear P Y db).students
            ∧ ∀ s' ∈ (resetannualCostForNewYear P Y db).students,
                s'.year = JsVal.num (JsNum.fin Y) →
                  s'.servicePayed = JsVal.num JsNum.zero
                  ∧ s'.annualPayed = JsVal.num JsNum.zero
                  ∧ s'.isSessionOpen = JsVal.bool true) := by
  refine ⟨?_, ?_, ?_⟩
  · unfold resetannualCostForNewYear
    cases P.reachable <;> simp
  · unfold resetannualCostForNewYear
    cases P.reachable
    · simpa using forall₂_map_self (R := Framed (JsNum.fin Y)) id db.students
        (fun a _ => ⟨sameElsewhere_refl a, fun _ => rfl⟩)
    · simp only [if_true]
      exact forall₂_map_self _ db.students (fun a _ => framed_step P (JsNum.fin Y) a)
  · intro hr hs
    have hF : List.Forall₂ (RolledOver (JsNum.fin Y)) db.students
        (resetannualCostForNewYear P Y db).students := by
      simp only [resetannualCostForNewYear, hr, if_true]
      exact forall₂_map_self _ db.students
        (fun a ha => rolledOver_step P (JsNum.fin Y) a (hs a ha))
    refine ⟨hF, ?_⟩
    intro s' hmem hy
    obtain ⟨s, _, hrel⟩ := forall₂_source hF s' hmem
    by_cases hsy : s.year = JsVal.num (JsNum.fin Y)
    · exact hrel.2 hsy
    · have := hrel.1.2 hsy
      subst this
      exact absurd hy hsy

/-- C2 on the sample store, for the year 2024: the record of 2024 is reset and
the record of 2023 is as before. -/
theorem rollover_pass_witness :
    (resetannualCostForNewYear servingStore 2024 sampleDb).students
        = [resetStudent storedStudent,
            { storedStudent with _id := "s2".toList, year := JsVal.num (JsNum.fin 2023) }]
      ∧ List.Forall₂ (RolledOver (JsNum.fin 2024)) sampleDb.students
          (resetannualCostForNewYear servingStore 2024 sampleDb).students :=
  ⟨by decide, ((rollover_pass servingStore 2024 sampleDb).2.2 rfl (by decide)).1⟩

theorem runTicks_passes (P : Persistence) (ticks : List Clock) :
    ∀ σ : Sys, (runTicks P ticks σ).passes
      = σ.passes + ticks.countP (fun now => decide (now.month = 8)) := by
  induction ticks with
  | nil => intro σ; simp [runTicks]
  | cons now rest ih =>
    intro σ
    have hstep : runTicks P (now :: rest) σ = runTicks P rest (tick P now σ) := rfl
    rw [hstep, ih]
    by_cases hm : now.month = 8
    · simp [tick, hm, List.countP_cons]
      omega
    · simp [tick, hm, List.countP_cons]

/-- C8 as stated fails: two daily ticks that both fall in September 2024 start
the reset pass twice. -/
theorem two_september_ticks_two_passes :
    (runTicks servingStore [⟨2024, 8⟩, ⟨2024, 8⟩] ⟨sampleDb, 0⟩).passes = 2 := by
  rw [runTicks_passes]
  decide

/-- C8, amended: the callback keeps no record of a pass already made; a tick
starts the reset pass exactly when the month read from the clock is index 8
(September), so over any sequence of daily ticks the number of passes started
is the number of ticks that fall in September, and a tick of another month
changes nothing. -/
theorem passes_count_september_ticks (P : Persistence) (ticks : List Clock) (σ : Sys) :
    (runTicks P ticks σ).passes
        = σ.passes + ticks.countP (fun now => decide (now.month = 8))
      ∧ (∀ now : Clock, now.month = 8 →
          tick P now σ
            = { db := resetannualCostForNewYear P now.fullYear σ.db, passes := σ.passes + 1 })
      ∧ (∀ now : Clock, now.month ≠ 8 → tick P now σ = σ) := by
  refine ⟨runTicks_passes P ticks σ, ?_, ?_⟩
  · intro now hm
    simp [tick, hm]
  · intro now hm
    simp [tick, hm]

/-- The amended C8 on three ticks, two of them in September. -/
theorem passes_count_september_ticks_witness :
    (runTicks servingStore [⟨2024, 7⟩, ⟨2024, 8⟩, ⟨2024, 8⟩] ⟨sampleDb, 0⟩).passes = 2
      ∧ tick servingStore ⟨2024, 7⟩ ⟨sampleDb, 0⟩ = ⟨sampleDb, 0⟩ :=
  ⟨(passes_count_september_ticks servingStore [⟨2024, 7⟩, ⟨2024, 8⟩, ⟨2024, 8⟩]
      ⟨sampleDb, 0⟩).1.trans (by decide),
    (passes_count_september_ticks servingStore [] ⟨sampleDb, 0⟩).2.2 ⟨2024, 7⟩ (by decide)⟩

/-! ## Listing by year -/

theorem getStudentsByYear_cast (P : Persistence) (db : Db) (year : JsStr) (y : JsNum)
    (hr : P.reachable = true) (hy : castNumber year = some (JsVal.num y)) :
    ((db.students.filter (fun s => decide (s.year = JsVal.num y))) ≠ [] →
        getStudentsByYear P db year
          = ⟨200, Payload.students
              (db.students.filter (fun s => decide (s.year = JsVal.num y)))⟩)
      ∧ ((db.students.filter (fun s => decide (s.year = JsVal.num y))) = [] →
        getStudentsByYear P db year
          = ⟨404, Payload.message "No students found for the selected year"⟩) := by
  have hm : matchesYear (JsVal.num y) = fun s => decide (s.year = JsVal.num y) := by
    funext s
    simp [matchesYear]
  constructor
  · intro hne
    simp [getStudentsByYear, hr, hy, hm, hne]
  · intro he
    simp [getStudentsByYear, hr, hy, hm, he]

/-- C3: with the store reachable, for every store state and every route
parameter that is the text of a number y (in particular the decimal text of
any natural-number year), `GET /students/year/:year` answers 200 with exactly
the stored records whose year equals y, in stored order, when there is at
least one, and 404 with the not-found message, not an empty list, when there
is none. -/
theorem getStudentsByYear_exact (P : Persistence) (db : Db) (hr : P.reachable = true) :
    (∀ (year : JsStr) (y : JsNum), castNumber year = some (JsVal.num y) →
        ((db.students.filter (fun s => decide (s.year = JsVal.num y))) ≠ [] →
          getStudentsByYear P db year
            = ⟨200, Payload.students
                (db.students.filter (fun s => decide (s.year = JsVal.num y)))⟩)
        ∧ ((db.students.filter (fun s => decide (s.year = JsVal.num y))) = [] →
          getStudentsByYear P db year
            = ⟨404, Payload.message "No students found for the selected year"⟩))
      ∧ ∀ n : Nat,
        ((db.students.filter (fun s => decide (s.year = JsVal.num (JsNum.fin n)))) ≠ [] →
          getStudentsByYear P db (decimalText n)
            = ⟨200, Payload.students
                (db.students.filter (fun s => decide (s.year = JsVal.num (JsNum.fin n))))⟩)
        ∧ ((db.students.filter (fun s => decide (s.year = JsVal.num (JsNum.fin n)))) = [] →
          getStudentsByYear P db (decimalText n)
            = ⟨404, Payload.message "No students found for the selected year"⟩) :=
  ⟨fun year y hy => getStudentsByYear_cast P db year y hr hy,
    fun n => getStudentsByYear_cast P db (decimalText n) (JsNum.fin n) hr
      (castNumber_decimalText n)⟩

/-- C3 on the sample store: a year with a record and a year without. -/
theorem getStudentsByYear_exact_witness :
    getStudentsByYear servingStore sampleDb "2024".toList
        = ⟨200, Payload.students [storedStudent]⟩
      ∧ getStudentsByYear servingStore sampleDb "1999".toList
        = ⟨404, Payload.message "No students found for the selected year"⟩ :=
  ⟨((getStudentsByYear_exact servingStore sampleDb rfl).1 "2024".toList (JsNum.fin 2024)
      (by decide)).1 (by decide),
    ((getStudentsByYear_exact servingStore sampleDb rfl).1 "1999".toList (JsNum.fin 1999)
      (by decide)).2 (by decide)⟩

/-! ## Update -/

theorem find_replaceFirst (id : JsStr) (f : Student → Student)
    (hf : ∀ x, (f x)._id = x._id) (l : List Student) (s : Student)
    (h : l.find? (fun x => decide (x._id = id)) = some s) :
    (replaceFirst id f l).find? (fun x => decide (x._id = id)) = some (f s) := by
  induction l with
  | nil => simp at h
  | cons a t ih =>
    by_cases ha : a._id = id
    · have hs : a = s := by simpa [List.find?_cons, ha] using h
      subst hs
      simp [replaceFirst, ha, List.find?_cons, hf]
    · have ht : t.find? (fun x => decide (x._id = id)) = some s := by
        simpa [List.find?_cons, ha] using h
      simp [replaceFirst, ha, List.find?_cons, ih ht]

theorem putStudent_found (P : Persistence) (db : Db) (id : JsStr) (body : StudentBody)
    (files : Files) (s : Student) (hr : P.reachable = true)
    (ha : P.acceptsUpdate (buildUpdates body files) = true)
    (hf : findById db id = some s) :
    putStudent P db id body (some files)
        = (Reply.sent ⟨200, Payload.student "Student updated successfully"
              (applyUpdates P (buildUpdates body files) s)⟩,
            { db with students :=
                replaceFirst id (applyUpdates P (buildUpdates body files)) db.students })
      ∧ findById (putStudent P db id body (some files)).2 id
        = some (applyUpdates P (buildUpdates body files) s) := by
  have h1 : putStudent P db id body (some files)
        = (Reply.sent ⟨200, Payload.student "Student updated successfully"
              (applyUpdates P (buildUpdates body files) s)⟩,
            { db with students :=
                replaceFirst id (applyUpdates P (buildUpdates body files)) db.students }) := by
    simp [putStudent, findByIdAndUpdate, hr, ha, hf]
  refine ⟨h1, ?_⟩
  rw [h1]
  exact find_replaceFirst id (applyUpdates P (buildUpdates body files)) (fun _ => rfl)
    db.students s hf

theorem putStudent_rejected (P : Persistence) (db : Db) (id : JsStr) (body : StudentBody)
    (files : Files)
    (h : ¬ (P.reachable = true ∧ P.acceptsUpdate (buildUpdates body files) = true)) :
    putStudent P db id body (some files)
      = (Reply.sent ⟨500, Payload.message "Internal Server Error"⟩, db) := by
  have : (!P.reachable || !P.acceptsUpdate (buildUpdates body files)) = true := by
    by_cases h1 : P.reachable = true
    · by_cases h2 : P.acceptsUpdate (buildUpdates body files) = true
      · exact absurd ⟨h1, h2⟩ h
      · simp [h2]
    · simp [h1]
  simp [putStudent, findByIdAndUpdate, this]

/-- C4: for an existing record and any update request, each of passport,
diplom and image is afterwards the path of the new file of that kind when the
request carries one and the update is performed, and the previous reference
when it carries none; whatever the outcome of the call, a kind without a new
file keeps its reference, and a request without `req.files`, on which the
handler throws, leaves the record as it was. -/
theorem putStudent_attachments (P : Persistence) (db : Db) (id : JsStr)
    (body : StudentBody) (files : Files) (s : Student) (hf : findById db id = some s) :
    (∃ s', findById (putStudent P db id body (some files)).2 id = some s'
        ∧ (files.passport = none → s'.passport = s.passport)
        ∧ (files.diplom = none → s'.diplom = s.diplom)
        ∧ (files.image = none → s'.image = s.image))
      ∧ (P.reachable = true → P.acceptsUpdate (buildUpdates body files) = true →
          ∃ s', putStudent P db id body (some files)
              = (Reply.sent ⟨200, Payload.student "Student updated successfully" s'⟩,
                  { db with students :=
                      replaceFirst id (applyUpdates P (buildUpdates body files)) db.students })
            ∧ findById (putStudent P db id body (some files)).2 id = some s'
            ∧ s'.passport = mergedRef files.passport s.passport
            ∧ s'.diplom = mergedRef files.diplom s.diplom
            ∧ s'.image = mergedRef files.image s.image)
      ∧ putStudent P db id body none = (Reply.thrown, db)
      ∧ findById (putStudent P db id body none).2 id = some s := by
  have key : ∀ (file : Option UploadedFile) (old : JsVal),
      setOptionalKey P (file.map (fun f => JsVal.str f.path)) old = mergedRef file old := by
    intro file old
    cases file <;> simp [setOptionalKey, setKey, mergedRef]
  have hsucc : P.reachable = true → P.acceptsUpdate (buildUpdates body files) = true →
      ∃ s', putStudent P db id body (some files)
          = (Reply.sent ⟨200, Payload.student "Student updated successfully" s'⟩,
              { db with students :=
                  replaceFirst id (applyUpdates P (buildUpdates body files)) db.students })
        ∧ findById (putStudent P db id body (some files)).2 id = some s'
        ∧ s'.passport = mergedRef files.passport s.passport
        ∧ s'.diplom = mergedRef files.diplom s.diplom
        ∧ s'.image = mergedRef files.image s.image := by
    intro hr ha
    obtain ⟨h1, h2⟩ := putStudent_found P db id body files s hr ha hf
    exact ⟨_, h1, h2, key _ _, key _ _, key _ _⟩
  refine ⟨?_, hsucc, rfl, hf⟩
  by_cases hok : P.reachable = true ∧ P.acceptsUpdate (buildUpdates body files) = true
  · obtain ⟨s', _, h2, hp, hd, hi⟩ := hsucc hok.1 hok.2
    refine ⟨s', h2, ?_, ?_, ?_⟩
    · intro hn; rw [hp, hn]; rfl
    · intro hn; rw [hd, hn]; rfl
    · intro hn; rw [hi, hn]; rfl
  · rw [putStudent_rejected P db id body files hok]
    exact ⟨s, hf, fun _ => rfl, fun _ => rfl, fun _ => rfl⟩

/-- C4 on the sample record: a new diplom file, no other file. -/
theorem putStudent_attachments_witness :
    ∃ s', findById (putStudent servingStore sampleDb "s1".toList fullBody
          (some { noFiles with
            diplom := some ⟨"9-d.pdf".toList, "/srv/uploads/9-d.pdf".toList⟩ })).2
          "s1".toList = some s'
      ∧ s'.passport = JsVal.str "uploads/1-p.pdf".toList
      ∧ s'.diplom = JsVal.str "/srv/uploads/9-d.pdf".toList
      ∧ s'.image = JsVal.null := by
  obtain ⟨s', _, h2, hp, hd, hi⟩ :=
    (putStudent_attachments servingStore sampleDb "s1".toList fullBody
      { noFiles with diplom := some ⟨"9-d.pdf".toList, "/srv/uploads/9-d.pdf".toList⟩ }
      storedStudent (by decide)).2.1 rfl (by decide)
  exact ⟨s', h2, hp, hd, hi⟩

/-- C6 as stated fails: an update that carries only `name`, applied to a
record with serviceCost 1000, servicePayed 200, annualCost 500 and annualPayed
100, is answered 200 and leaves all four of these fields at 0. -/
theorem putStudent_absent_money_zeroed :
    nameOnlyBody.serviceCost = JsVal.undefined
      ∧ findById sampleDb "s1".toList = some storedStudent
      ∧ storedStudent.serviceCost = JsVal.num (JsNum.fin 1000)
      ∧ ∃ s', (putStudent servingStore sampleDb "s1".toList nameOnlyBody (some noFiles)).1
            = Reply.sent ⟨200, Payload.student "Student updated successfully" s'⟩
        ∧ findById (putStudent servingStore sampleDb "s1".toList nameOnlyBody
            (some noFiles)).2 "s1".toList = some s'
        ∧ s'.serviceCost = JsVal.num (JsNum.fin 0)
        ∧ s'.servicePayed = JsVal.num (JsNum.fin 0)
        ∧ s'.annualCost = JsVal.num (JsNum.fin 0)
        ∧ s'.annualPayed = JsVal.num (JsNum.fin 0)
        ∧ s'.serviceCost ≠ storedStudent.serviceCost := by
  refine ⟨rfl, by decide, rfl,
    applyUpdates servingStore (buildUpdates nameOnlyBody noFiles) storedStudent,
    by decide, by decide, by decide, by decide, by decide, by decide, by decide⟩

theorem scalarAfter_setKey (P : Persistence) (sent old : JsVal) :
    ScalarAfter P sent old (setKey P sent old) := by
  constructor
  · intro t h
    simp [setKey, h]
  · intro h ho
    simp [setKey, h, ho]

theorem castNumberValue_defined (sent v : JsVal) (hs : sent ≠ JsVal.undefined)
    (hc : castNumberValue sent = some v) : v ≠ JsVal.undefined := by
  intro hv
  subst hv
  cases sent with
  | undefined => exact hs rfl
  | null => simp [castNumberValue] at hc
  | bool b => simp [castNumberValue] at hc
  | num n =>
    by_cases hn : n = JsNum.nan <;> simp [castNumberValue, hn] at hc
  | str t =>
    simp only [castNumberValue, castNumber] at hc
    split at hc
    · simp at hc
    · split at hc <;> simp at hc

theorem castBoolean_defined (sent v : JsVal) (hs : sent ≠ JsVal.undefined)
    (hc : castBoolean sent = some v) : v ≠ JsVal.undefined := by
  intro hv
  subst hv
  cases sent with
  | undefined => exact hs rfl
  | null => simp [castBoolean] at hc
  | bool b => simp [castBoolean] at hc
  | num n =>
    simp only [castBoolean] at hc
    split at hc
    · simp at hc
    · split at hc <;> simp at hc
  | str t =>
    simp only [castBoolean] at hc
    split at hc
    · simp at hc
    · split at hc <;> simp at hc

theorem castAfter_number (P : Persistence) (sent old : JsVal) :
    CastAfter P castNumberValue sent old (setKey P (storedNumber sent) old) := by
  constructor
  · intro v hs hc
    have hv := castNumberValue_defined sent v hs hc
    simp [setKey, storedNumber, hc, hv]
  · intro h ho
    subst h
    simp [setKey, storedNumber, castNumberValue, ho]

theorem castAfter_boolean (P : Persistence) (sent old : JsVal) :
    CastAfter P castBoolean sent old (setKey P (storedBoolean sent) old) := by
  constructor
  · intro v hs hc
    have hv := castBoolean_defined sent v hs hc
    simp [setKey, storedBoolean, hc, hv]
  · intro h ho
    subst h
    simp [setKey, storedBoolean, castBoolean, ho]

theorem moneyAfter_setKey (P : Persistence) (sent old : JsVal) :
    MoneyAfter sent (setKey P (JsVal.num (numberOrZero sent)) old) := by
  constructor
  · simp [setKey]
  · intro h
    subst h
    simp [setKey, numberOrZero, toNumber, JsNum.truthy]

/-- C6, amended: an update may carry any subset of the scalar fields; when the
record exists and the update is performed, each of the seven text fields takes
the string carried by the request, year takes the cast to `Number` of the
value carried (the text `2024` is stored as the number 2024) and each of the
three flags its cast to `Boolean`; a field of these eleven that the request
does not carry keeps its value (the persistence layer dropping `undefined`
keys), while serviceCost, servicePayed, annualCost and annualPayed are always
written: `Number` of the value or 0, so 0 when absent. -/
theorem putStudent_scalar_fields (P : Persistence) (db : Db) (id : JsStr)
    (body : StudentBody) (files : Files) (s : Student) (hr : P.reachable = true)
    (ha : P.acceptsUpdate (buildUpdates body files) = true)
    (hf : findById db id = some s) :
    ∃ s', (putStudent P db id body (some files)).1
          = Reply.sent ⟨200, Payload.student "Student updated successfully" s'⟩
      ∧ findById (putStudent P db id body (some files)).2 id = some s'
      ∧ s'._id = s._id
      ∧ ScalarAfter P body.name s.name s'.name
      ∧ ScalarAfter P body.surname s.surname s'.surname
      ∧ ScalarAfter P body.parentName s.parentName s'.parentName
      ∧ ScalarAfter P body.study s.study s'.study
      ∧ ScalarAfter P body.mobile s.mobile s'.mobile
      ∧ ScalarAfter P body.parentMobile s.parentMobile s'.parentMobile
      ∧ ScalarAfter P body.prof s.prof s'.prof
      ∧ CastAfter P castNumberValue body.year s.year s'.year
      ∧ CastAfter P castBoolean body.isSessionOpen s.isSessionOpen s'.isSessionOpen
      ∧ CastAfter P castBoolean body.isNastrficationPayed s.isNastrficationPayed
          s'.isNastrficationPayed
      ∧ CastAfter P castBoolean body.isNastrfication s.isNastrfication s'.isNastrfication
      ∧ MoneyAfter body.serviceCost s'.serviceCost
      ∧ MoneyAfter body.servicePayed s'.servicePayed
      ∧ MoneyAfter body.annualCost s'.annualCost
      ∧ MoneyAfter body.annualPayed s'.annualPayed := by
  obtain ⟨h1, h2⟩ := putStudent_found P db id body files s hr ha hf
  refine ⟨applyUpdates P (buildUpdates body files) s, by rw [h1], h2, rfl,
    scalarAfter_setKey P _ _, scalarAfter_setKey P _ _, scalarAfter_setKey P _ _,
    scalarAfter_setKey P _ _, scalarAfter_setKey P _ _, scalarAfter_setKey P _ _,
    scalarAfter_setKey P _ _, castAfter_number P _ _, castAfter_boolean P _ _,
    castAfter_boolean P _ _, castAfter_boolean P _ _,
    moneyAfter_setKey P body.serviceCost s.serviceCost,
    moneyAfter_setKey P body.servicePayed s.servicePayed,
    moneyAfter_setKey P body.annualCost s.annualCost,
    moneyAfter_setKey P body.annualPayed s.annualPayed⟩

/-- The amended C6 on the sample record, for an update carrying `name`, the
year as the text `2025` and isSessionOpen as the text `true`. -/
theorem putStudent_scalar_fields_witness :
    ∃ s', (putStudent servingStore sampleDb "s1".toList
          { nameOnlyBody with
            year := JsVal.str "2025".toList
            isSessionOpen := JsVal.str "true".toList } (some noFiles)).1
          = Reply.sent ⟨200, Payload.student "Student updated successfully" s'⟩
      ∧ s'.name = JsVal.str "Z".toList
      ∧ s'.surname = JsVal.str "B".toList
      ∧ s'.year = JsVal.num (JsNum.fin 2025)
      ∧ s'.isSessionOpen = JsVal.bool true
      ∧ s'.isNastrfication = JsVal.bool false
      ∧ s'.serviceCost = JsVal.num JsNum.zero := by
  obtain ⟨s', h1, _, _, hn, hs, _, _, _, _, _, hy, ho, _, hf, hc, _⟩ :=
    putStudent_scalar_fields servingStore sampleDb "s1".toList
      { nameOnlyBody with
        year := JsVal.str "2025".toList
        isSessionOpen := JsVal.str "true".toList } noFiles
      storedStudent rfl (by decide) (by decide)
  exact ⟨s', h1, hn.1 _ rfl, hs.2 rfl rfl, hy.1 _ (by decide) (by decide),
    ho.1 _ (by decide) (by decide), hf.2 rfl rfl, hc.2 rfl⟩

/-! ## The session gate -/

/-- C9 as stated fails: the header `Bearer tok.u1 extra` has three segments,
so it is not of the two-part shape, yet the gate does not answer 401: it
verifies the second segment, admits the request, and the protected create
runs and adds a record. -/
theorem three_part_header_admitted :
    twoPart "Bearer tok.u1 extra".toList = false
      ∧ authenticate sampleAuth (some "Bearer tok.u1 extra".toList) = Gate.next "u1".toList
      ∧ (protect sampleAuth (some "Bearer tok.u1 extra".toList) sampleDb
          (fun d => postStudents servingStore d "s3".toList fullBody (some noFiles))).1
        = Reply.sent ⟨201, Payload.student "Student added successfully"
            (castStudent (newStudent "s3".toList fullBody noFiles))⟩
      ∧ (protect sampleAuth (some "Bearer tok.u1 extra".toList) sampleDb
          (fun d => postStudents servingStore d "s3".toList fullBody
            (some noFiles))).2.students.length
        = 3 := by
  refine ⟨by decide, by decide, by decide, by decide⟩

/-- C9, amended: a header that is present and non-empty is answered 401
`Access denied. Invalid token format.`, and the protected operation does not
run, exactly when its second space-separated segment is missing or empty (no
space in the header, or a space followed at once by another space or by the
end); on any other header the second segment alone is handed to the token
verification, whatever follows it. -/
theorem authenticate_token_format (A : AuthLib) (h : JsStr) :
    (h ≠ [] → falsyStr ((splitSpace h)[1]?) = true →
        authenticate A (some h)
            = Gate.respond ⟨401, Payload.message "Access denied. Invalid token format."⟩
          ∧ ∀ (db : Db) (operation : Db → Reply × Db),
              protect A (some h) db operation
                = (Reply.sent ⟨401, Payload.message "Access denied. Invalid token format."⟩,
                    db))
      ∧ (authenticate A (some h)
            = Gate.respond ⟨401, Payload.message "Access denied. Invalid token format."⟩ →
          h ≠ [] ∧ falsyStr ((splitSpace h)[1]?) = true)
      ∧ (h ≠ [] → ∀ token, (splitSpace h)[1]? = some token → token ≠ [] →
          authenticate A (some h)
            = match A.jwtVerify token with
              | some decoded => Gate.next decoded
              | none => Gate.respond ⟨400, Payload.message "Invalid token."⟩) := by
  have hne : h ≠ [] → falsyStr (some h) = false := by
    intro hh
    cases h with
    | nil => exact absurd rfl hh
    | cons c cs => rfl
  refine ⟨?_, ?_, ?_⟩
  · intro hh hseg
    have hauth : authenticate A (some h)
        = Gate.respond ⟨401, Payload.message "Access denied. Invalid token format."⟩ := by
      simp [authenticate, hne hh, hseg]
    refine ⟨hauth, ?_⟩
    intro db operation
    simp [protect, hauth]
  · intro hauth
    cases h with
    | nil => simp [authenticate, falsyStr] at hauth
    | cons c cs =>
      refine ⟨by simp, ?_⟩
      by_contra hseg
      have hseg' : falsyStr ((splitSpace (c :: cs))[1]?) = false := by simpa using hseg
      have hf : falsyStr (some (c :: cs)) = false := rfl
      simp only [authenticate, hf, Option.getD_some, hseg'] at hauth
      cases hv : A.jwtVerify (((splitSpace (c :: cs))[1]?).getD []) <;>
        simp [hv] at hauth
  · intro hh token htok hnon
    have hseg : falsyStr (some token) = false := by
      cases token with
      | nil => exact absurd rfl hnon
      | cons c cs => rfl
    simp only [authenticate, hne hh, Option.getD_some, htok, hseg]
    cases A.jwtVerify token <;> simp

/-- The amended C9 at a header without a space and at one with two spaces. -/
theorem authenticate_token_format_witness :
    authenticate sampleAuth (some "Bearer".toList)
        = Gate.respond ⟨401, Payload.message "Access denied. Invalid token format."⟩
      ∧ authenticate sampleAuth (some "Bearer  tok.u1".toList)
        = Gate.respond ⟨401, Payload.message "Access denied. Invalid token format."⟩ :=
  ⟨((authenticate_token_format sampleAuth "Bearer".toList).1 (by decide) (by decide)).1,
    ((authenticate_token_format sampleAuth "Bearer  tok.u1".toList).1 (by decide)
      (by decide)).1⟩

/-! ## Login -/

/-- C10: two login requests with non-empty username and password, one naming
no stored user and one naming a stored user whose password does not verify,
get the same response, which is 400 `Invalid username or password` when the
store is reachable; and a request whose username or password is absent gets
400 `Username and password are required`. -/
theorem postLogin_uniform_failure (A : AuthLib) (P : Persistence) (db : Db) :
    (∀ (u₁ p₁ u₂ p₂ : JsStr) (user : User),
        u₁ ≠ [] → p₁ ≠ [] → u₂ ≠ [] → p₂ ≠ [] →
        findUser db u₁ = none →
        findUser db u₂ = some user → A.bcryptCompare p₂ user.password = false →
        postLogin A P db ⟨some u₁, some p₁⟩ = postLogin A P db ⟨some u₂, some p₂⟩
          ∧ (P.reachable = true →
              postLogin A P db ⟨some u₁, some p₁⟩
                  = ⟨400, Payload.message "Invalid username or password"⟩
                ∧ postLogin A P db ⟨some u₂, some p₂⟩
                  = ⟨400, Payload.message "Invalid username or password"⟩))
      ∧ (∀ body : LoginBody, body.username = none ∨ body.password = none →
          postLogin A P db body
            = ⟨400, Payload.message "Username and password are required"⟩) := by
  have hne : ∀ x : JsStr, x ≠ [] → falsyStr (some x) = false := by
    intro x hx
    cases x with
    | nil => exact absurd rfl hx
    | cons c cs => rfl
  constructor
  · intro u₁ p₁ u₂ p₂ user hu₁ hp₁ hu₂ hp₂ hnone hsome hbad
    have e₁ : postLogin A P db ⟨some u₁, some p₁⟩
        = if P.reachable then ⟨400, Payload.message "Invalid username or password"⟩
          else ⟨500, Payload.message "Internal Server Error"⟩ := by
      cases hr : P.reachable <;> simp [postLogin, hne, hu₁, hp₁, hr, hnone]
    have e₂ : postLogin A P db ⟨some u₂, some p₂⟩
        = if P.reachable then ⟨400, Payload.message "Invalid username or password"⟩
          else ⟨500, Payload.message "Internal Server Error"⟩ := by
      cases hr : P.reachable <;> simp [postLogin, hne, hu₂, hp₂, hr, hsome, hbad]
    refine ⟨by rw [e₁, e₂], ?_⟩
    intro hr
    rw [e₁, e₂]
    simp [hr]
  · intro body hb
    rcases hb with hb | hb <;> simp [postLogin, hb, falsyStr]

/-- C10 on the sample store: unknown user, wrong password, absent username. -/
theorem postLogin_uniform_failure_witness :
    postLogin sampleAuth servingStore sampleDb ⟨some "nobody".toList, some "secret".toList⟩
        = postLogin sampleAuth servingStore sampleDb ⟨some "admin".toList, some "wrong".toList⟩
      ∧ postLogin sampleAuth servingStore sampleDb ⟨none, some "secret".toList⟩
        = ⟨400, Payload.message "Username and password are required"⟩ :=
  ⟨((postLogin_uniform_failure sampleAuth servingStore sampleDb).1 "nobody".toList
      "secret".toList "admin".toList "wrong".toList
      { _id := "u1".toList, username := "admin".toList, password := "hash".toList }
      (by decide) (by decide) (by decide) (by decide) (by decide) (by decide) (by decide)).1,
    (postLogin_uniform_failure sampleAuth servingStore sampleDb).2
      ⟨none, some "secret".toList⟩ (Or.inl rfl)⟩

end NdBackend
